import Mathlib

/-!
Verification of the python-jss Resource Object Model & CRUD Protocol Layer.

The definitions below are a shallow embedding of the repository sources
(src/jss.py and src/jss/jssobjects.py).  XML documents, as handled by
Python's xml.etree.ElementTree, are modelled as finite trees of tagged
elements with optional text.  Slash-delimited ElementTree paths such as
"general/mac_address" are represented pre-split as lists of tag names.
Definitions whose Python source is not part of the repository snapshot
(the JSSObject document-binding helpers declared in jss/jssobject.py and
the CRUD dispatcher) are modelled from the design specification and are
marked as such in their doc comments.
-/

/-- Model of an xml.etree.ElementTree.Element: a tag, optional text, and an
ordered list of child elements. -/
structure Element where
  tag : String
  text : Option String
  children : List Element

/-- Model of ElementTree child lookup: the first direct child with the
given tag, if any. -/
def Element.findChild (e : Element) (t : String) : Option Element :=
  e.children.find? (fun c => c.tag == t)

/-- Model of ElementTree Element.find on a slash-delimited path (the path
is represented pre-split into its tag segments): sequential descent,
taking the first matching child at every step; an absent intermediate
element yields none rather than an error. -/
def Element.find : Element → List String → Option Element
  | e, [] => some e
  | e, t :: ts =>
    match e.findChild t with
    | none => none
    | some c => Element.find c ts

/-- Model of ElementTree Element.findtext on a slash-delimited path: none
when no element matches, and the element text (the empty string when the
element exists but carries no text) otherwise. -/
def Element.findtext (e : Element) (p : List String) : Option String :=
  (e.find p).map (fun x => x.text.getD "")

/-- Python truthiness of an optional string: None and the empty string are
falsy, every other string is truthy. -/
def truthy : Option String → Bool
  | none => false
  | some s => !(s == "")

/-- Replace the first child whose tag matches with the supplied element,
leaving every other child untouched. -/
def replaceFirst : List Element → String → Element → List Element
  | [], _, _ => []
  | c :: cs, t, r => if c.tag == t then r :: cs else c :: replaceFirst cs t r

/-- Modelled from the spec: the Document Binding operation that, given a
slash-delimited path (pre-split), removes all children of the first element
reached by sequential first-match descent along the path, without removing
that element itself; when the path does not resolve, the document is
returned unchanged.  This models JSSObject.clear_list, whose defining
module jss/jssobject.py is not part of the repository snapshot. -/
def clearAtPath : Element → List String → Element
  | e, [] => ⟨e.tag, e.text, []⟩
  | e, t :: ts =>
    match e.findChild t with
    | none => e
    | some c => ⟨e.tag, e.text, replaceFirst e.children t (clearAtPath c ts)⟩

/-- Strict (proper) prefix test on pre-split paths: true when the first
path is an initial segment of the second and the two differ. -/
def strictPrefixOf : List String → List String → Bool
  | [], [] => false
  | [], _ :: _ => true
  | _ :: _, [] => false
  | a :: as, b :: bs => a == b && strictPrefixOf as bs

theorem clearAtPath_tag (e : Element) (p : List String) :
    (clearAtPath e p).tag = e.tag := by
  cases p with
  | nil => rfl
  | cons t ts => cases h : e.findChild t <;> simp [clearAtPath, h]

theorem replaceFirst_find_ne (t s : String) (r : Element) (hr : r.tag = t)
    (hne : s ≠ t) :
    ∀ l : List Element,
      (replaceFirst l t r).find? (fun c => c.tag == s)
        = l.find? (fun c => c.tag == s) := by
  intro l
  induction l with
  | nil => rfl
  | cons c cs ih =>
    by_cases hct : c.tag = t
    · have hcs : (c.tag == s) = false := by
        simp [hct]
        exact fun h => hne h.symm
      have hrs : (r.tag == s) = false := by
        simp [hr]
        exact fun h => hne h.symm
      have hts : (t == s) = false := by
        simp
        exact fun h => hne h.symm
      simp [replaceFirst, hct, List.find?, hcs, hrs, hts]
    · have hct2 : (c.tag == t) = false := by simpa using hct
      by_cases hcs : (c.tag == s) = true
      · simp [replaceFirst, hct2, List.find?, hcs]
      · have hcs2 : (c.tag == s) = false := by simpa using hcs
        simp [replaceFirst, hct2, List.find?, hcs2, ih]

theorem replaceFirst_find_eq (t : String) (r : Element) (hr : r.tag = t) :
    ∀ l : List Element,
      (replaceFirst l t r).find? (fun c => c.tag == t)
        = (l.find? (fun c => c.tag == t)).map (fun _ => r) := by
  intro l
  induction l with
  | nil => rfl
  | cons c cs ih =>
    by_cases hct : (c.tag == t) = true
    · have hrt : (r.tag == t) = true := by simp [hr]
      simp [replaceFirst, hct, List.find?, hrt]
    · have hct2 : (c.tag == t) = false := by simpa using hct
      simp [replaceFirst, hct2, List.find?, ih]

theorem find_clearAtPath_other (q : List String) :
    ∀ (p : List String) (e el : Element), strictPrefixOf q p = false →
      e.find p = some el →
      ∃ el2, (clearAtPath e q).find p = some el2
        ∧ (el.children = [] → el2.children = []) := by
  induction q with
  | nil =>
    intro p e el hq hfind
    cases p with
    | nil =>
      simp [Element.find] at hfind
      subst hfind
      exact ⟨⟨e.tag, e.text, []⟩, rfl, fun _ => rfl⟩
    | cons s ps => simp [strictPrefixOf] at hq
  | cons t ts ih =>
    intro p e el hq hfind
    cases hc : e.findChild t with
    | none =>
      refine ⟨el, ?_, fun h => h⟩
      simp [clearAtPath, hc, hfind]
    | some c =>
      have hct : c.tag = t := by
        rw [Element.findChild] at hc
        simpa using List.find?_some hc
      have hrt : (clearAtPath c ts).tag = t := by rw [clearAtPath_tag, hct]
      cases p with
      | nil =>
        simp [Element.find] at hfind
        subst hfind
        refine ⟨⟨e.tag, e.text, replaceFirst e.children t (clearAtPath c ts)⟩,
          by simp [clearAtPath, hc, Element.find], ?_⟩
        intro hech
        exfalso
        rw [Element.findChild, hech] at hc
        simp [List.find?] at hc
      | cons s ps =>
        cases hd : e.findChild s with
        | none => rw [Element.find, hd] at hfind; exact absurd hfind (by simp)
        | some d =>
          rw [Element.find, hd] at hfind
          by_cases hst : s = t
          · subst hst
            have hdc : d = c := by
              rw [hd] at hc
              exact (Option.some_inj.mp hc)
            subst hdc
            have hts : strictPrefixOf ts ps = false := by
              simpa [strictPrefixOf] using hq
            obtain ⟨el2, hf2, hch2⟩ := ih ps d el hts hfind
            refine ⟨el2, ?_, hch2⟩
            have hc2 : List.find? (fun x => x.tag == s) e.children = some d := by
              rw [Element.findChild] at hc
              exact hc
            have hfc : (clearAtPath e (s :: ts)).findChild s
                = some (clearAtPath d ts) := by
              simp only [clearAtPath, Element.findChild, hc2]
              rw [replaceFirst_find_eq s _ hrt, hc2]
              rfl
            rw [Element.find, hfc]
            exact hf2
          · refine ⟨el, ?_, fun h => h⟩
            have hc2 : List.find? (fun x => x.tag == t) e.children = some c := by
              rw [Element.findChild] at hc
              exact hc
            have hfc : (clearAtPath e (t :: ts)).findChild s = some d := by
              simp only [clearAtPath, Element.findChild, hc2]
              rw [replaceFirst_find_ne t s _ hrt hst]
              rw [Element.findChild] at hd
              exact hd
            rw [Element.find, hfc]
            exact hfind

theorem find_clearAtPath_self : ∀ (p : List String) (e el : Element),
    e.find p = some el →
    (clearAtPath e p).find p = some ⟨el.tag, el.text, []⟩ := by
  intro p
  induction p with
  | nil =>
    intro e el h
    simp [Element.find] at h
    subst h
    simp [clearAtPath, Element.find]
  | cons t ts ih =>
    intro e el h
    cases hc : e.findChild t with
    | none => rw [Element.find, hc] at h; exact absurd h (by simp)
    | some c =>
      rw [Element.find, hc] at h
      have hct : c.tag = t := by
        rw [Element.findChild] at hc
        simpa using List.find?_some hc
      have hrt : (clearAtPath c ts).tag = t := by rw [clearAtPath_tag, hct]
      have hc2 : List.find? (fun x => x.tag == t) e.children = some c := by
        rw [Element.findChild] at hc
        exact hc
      have hfc : (clearAtPath e (t :: ts)).findChild t
          = some (clearAtPath c ts) := by
        simp only [clearAtPath, Element.findChild, hc2]
        rw [replaceFirst_find_eq t _ hrt, hc2]
        rfl
      rw [Element.find, hfc]
      exact ih c el h

theorem find_foldl_clearAtPath :
    ∀ (qs : List (List String)) (e : Element) (p : List String) (el : Element),
      (∀ q ∈ qs, strictPrefixOf q p = false) →
      e.find p = some el →
      ∃ el2, (qs.foldl clearAtPath e).find p = some el2
        ∧ (el.children = [] → el2.children = [])
        ∧ (p ∈ qs → el2.children = []) := by
  intro qs
  induction qs with
  | nil =>
    intro e p el hq hfind
    exact ⟨el, by simpa using hfind, fun h => h, by simp⟩
  | cons q qs ih =>
    intro e p el hq hfind
    by_cases hqp : q = p
    · subst hqp
      have h1 := find_clearAtPath_self q e el hfind
      obtain ⟨el2, hf2, hemp2, _⟩ := ih (clearAtPath e q) q ⟨el.tag, el.text, []⟩
        (fun q2 hq2 => hq q2 (List.mem_cons_of_mem _ hq2)) h1
      exact ⟨el2, hf2, fun _ => hemp2 rfl, fun _ => hemp2 rfl⟩
    · have hq0 : strictPrefixOf q p = false := hq q (List.mem_cons_self _ _)
      obtain ⟨el1, hf1, hch1⟩ := find_clearAtPath_other q p e el hq0 hfind
      obtain ⟨el2, hf2, hemp2, hin2⟩ := ih (clearAtPath e q) p el1
        (fun q2 hq2 => hq q2 (List.mem_cons_of_mem _ hq2)) hf1
      refine ⟨el2, hf2, fun h => hemp2 (hch1 h), fun hp => ?_⟩
      rcases List.mem_cons.mp hp with h | h
      · exact absurd h.symm hqp
      · exact hin2 h

/-- Error taxonomy of the client.  The constructors mirror the exception
classes raised by the code under src: JSSAuthenticationError and
JSSGetError are declared in src/jss.py; JSSFileUploadParameterError,
JSSMethodNotAllowedError and JSSPostError are raised by
src/jss/jssobjects.py (their declaring module jss/exceptions.py is not
part of the snapshot).  Note that no constructor carries both an HTTP
status code and a response body: the code under src never raises such a
failure from a GET. -/
inductive JssError where
  | authenticationError (message : String)
  | getError (message : String)
  | fileUploadParameterError (message : String)
  | methodNotAllowed
  | postError (message : String)
deriving DecidableEq

/-- The two response fields of the underlying HTTP client that
JSS.get_request inspects. -/
structure HttpResponse where
  status_code : Nat
  text : String

/-- Embedding of JSS.get_request (src/jss.py lines 75-89): a 401 status
raises JSSAuthenticationError, a 404 raises JSSGetError, and every other
response falls through to the XML decode of the body.  The external
ElementTree.fromstring parser is taken as a parameter. -/
def JSS.get_request (fromstring : String → Except JssError Element)
    (url : String) (response : HttpResponse) : Except JssError Element :=
  if response.status_code = 401 then
    Except.error (JssError.authenticationError
      "Authentication error: check the api username and password")
  else if response.status_code = 404 then
    Except.error (JssError.getError ("Object " ++ url ++ " does not exist!"))
  else
    fromstring response.text

/-- Embedding of the list comprehension of JSS.list (src/jss.py lines
111-123): one entry per child of the response whose tag is not the size
marker.  The comprehension also guards item is not None, which is always
true for children of a parsed ElementTree element and is dropped here;
the per-item obj_class wrapper stores the child element unchanged, so the
result is modelled as the list of kept child elements. -/
def JSS.list (xmldata : Element) : List Element :=
  xmldata.children.filter (fun item => !(item.tag == "size"))

/-- Embedding of the URL construction of JSS.get (src/jss.py lines
100-109): with an id the path is base, object segment, the literal id
token, and the id value; without an id it is base and segment. -/
def JSS.get_url (base : String) (obj_url : String) (id_ : Option String) :
    String :=
  match id_ with
  | some i => base ++ obj_url ++ "/id/" ++ i
  | none => base ++ obj_url

/-- URL segment of the Policy resource type (src/jss.py lines 240-241 and
src/jss/jssobjects.py line 656). -/
def Policy._url : String := "/policies"

/-- Embedding of the response handling of LDAPServer.is_user_in_group
(src/jss/jssobjects.py lines 402-430).  The function receives the parsed
response of the group-membership GET; a one-element response keeps the
default False, a two-element response is True exactly when the nested
record matches the queried username and carries the membership flag Yes,
and any longer response raises JSSGetError. -/
def LDAPServer.is_user_in_group (response : Element) (user : String) :
    Except JssError Bool :=
  let length := response.children.length
  if length = 1 then
    Except.ok false
  else if length = 2 then
    Except.ok ((response.findtext ["ldap_user", "username"] == some user)
      && (response.findtext ["ldap_user", "is_member"] == some "Yes"))
  else if 2 ≤ length then
    Except.error (JssError.getError "Unexpected response.")
  else
    Except.ok false

/-- The enumerated resource types accepted by FileUpload
(src/jss/jssobjects.py lines 284-288). -/
def FileUpload.resource_types : List String :=
  ["computers", "mobiledevices", "enrollmentprofiles",
   "peripherals", "policies", "ebooks",
   "mobiledeviceapplicationsicon",
   "mobiledeviceapplicationsipa",
   "diskencryptionconfigurations"]

/-- The id token values accepted by FileUpload
(src/jss/jssobjects.py line 289). -/
def FileUpload.id_types : List String := ["id", "name"]

/-- The state a successfully constructed FileUpload holds. -/
structure FileUpload where
  resource_type : String
  id_type : String
  _id : String
  _upload_url : String

/-- Embedding of the parameter checking of FileUpload.__init__ together
with _set_upload_url (src/jss/jssobjects.py lines 284-318): a
resource_type outside the enumerated set, or an id_type outside id and
name, raises JSSFileUploadParameterError; otherwise the upload URL is the
slash join of the base, the fileuploads segment, the resource type, the
id token and the id value.  The constructor performs no HTTP request:
networking happens only later, in save. -/
def FileUpload.init (jss_url : String) (resource_type : String)
    (id_type : String) (_id : String) : Except JssError FileUpload :=
  if resource_type ∈ FileUpload.resource_types then
    if id_type ∈ FileUpload.id_types then
      Except.ok (FileUpload.mk resource_type id_type _id
        (String.intercalate "/"
          [jss_url, "fileuploads", resource_type, id_type, _id]))
    else
      Except.error (JssError.fileUploadParameterError
        "id_type must be one of: id, name")
  else
    Except.error (JssError.fileUploadParameterError
      "resource_type must be one of the enumerated resource types")

/-- Per-resource-type capability descriptor.  The capability class
attributes a resource type may override are those of
src/jss/jssobjects.py; their default of true for every operation is
declared on the JSSObject base class in jss/jssobject.py, which is not
part of the snapshot and whose defaults are modelled from the spec
(capabilities default to all permitted). -/
structure JSSObjectClass where
  _url : String
  can_list : Bool := true
  can_get : Bool := true
  can_put : Bool := true
  can_post : Bool := true
  can_delete : Bool := true

/-- Descriptor of ActivationCode (src/jss/jssobjects.py lines 59-64). -/
def ActivationCode : JSSObjectClass :=
  { _url := "/activationcode", can_delete := false, can_post := false,
    can_list := false }

/-- Descriptor of SavedSearch (src/jss/jssobjects.py lines 825-829). -/
def SavedSearch : JSSObjectClass :=
  { _url := "/savedsearches", can_put := false, can_post := false,
    can_delete := false }

/-- The five CRUD operations of the capability model. -/
inductive CrudOp where
  | opList
  | opGet
  | opPut
  | opPost
  | opDelete
deriving DecidableEq

/-- The capability flag a descriptor declares for an operation. -/
def JSSObjectClass.can_perform (c : JSSObjectClass) : CrudOp → Bool
  | CrudOp.opList => c.can_list
  | CrudOp.opGet => c.can_get
  | CrudOp.opPut => c.can_put
  | CrudOp.opPost => c.can_post
  | CrudOp.opDelete => c.can_delete

/-- Modelled from the spec: the CRUD Dispatcher, which is not part of the
snapshot, consults the capability table before issuing a request and
fails fast with MethodNotAllowed when the operation is disabled for the
type, issuing no network call.  The second component records the network
calls issued by the operation. -/
def crudDispatch (c : JSSObjectClass) (op : CrudOp) :
    Except JssError Unit × List String :=
  if c.can_perform op then (Except.ok (), [c._url])
  else (Except.error JssError.methodNotAllowed, [])

/-- Embedding of the Computer.mac_addresses property
(src/jss/jssobjects.py lines 107-117): the list starts with the primary
address text, and only inside the truthiness test of the secondary
address is the list extended and returned; when the secondary address is
absent or empty the method falls through and returns None. -/
def Computer.mac_addresses (e : Element) : Option (List (Option String)) :=
  let macs := [e.findtext ["general", "mac_address"]]
  if truthy (e.findtext ["general", "alt_mac_address"]) then
    some (macs ++ [e.findtext ["general", "alt_mac_address"]])
  else
    none

/-- Embedding of the MobileDevice.bluetooth_mac_address property
(src/jss/jssobjects.py lines 492-496): the Python expression a or b,
returning the bluetooth text when truthy and the mac_address text
otherwise. -/
def MobileDevice.bluetooth_mac_address (e : Element) : Option String :=
  if truthy (e.findtext ["general", "bluetooth_mac_address"]) then
    e.findtext ["general", "bluetooth_mac_address"]
  else
    e.findtext ["general", "mac_address"]

/-- Modelled from the spec: the Document Binding boolean setter
(JSSObject.set_bool, declared in jss/jssobject.py which is not part of
the snapshot) serializes booleans as the literal strings true and
false. -/
def set_bool_text (b : Bool) : Option String :=
  if b then some "true" else some "false"

/-- Embedding of the document built by Policy.new
(src/jss/jssobjects.py lines 659-712): the general block with name,
enabled, frequency and category; the scope block with computers,
computer_groups, the misspelled buldings element, departments and the
exclusions block; the self_service, package_configuration and
maintenance blocks.  The optional category argument contributes a name
child of general/category exactly when present (the source also accepts
a Category object, represented here by its name string). -/
def Policy.new (name : String) (category : Option String) : Element :=
  Element.mk "policy" none
    [Element.mk "general" none
      [Element.mk "name" (some name) [],
       Element.mk "enabled" (set_bool_text true) [],
       Element.mk "frequency" (some "Once per computer") [],
       Element.mk "category" none
         (match category with
          | some c => [Element.mk "name" (some c) []]
          | none => [])],
     Element.mk "scope" none
      [Element.mk "computers" none [],
       Element.mk "computer_groups" none [],
       Element.mk "buldings" none [],
       Element.mk "departments" none [],
       Element.mk "exclusions" none
        [Element.mk "computers" none [],
         Element.mk "computer_groups" none [],
         Element.mk "buildings" none [],
         Element.mk "departments" none []]],
     Element.mk "self_service" none
      [Element.mk "use_for_self_service" (set_bool_text true) []],
     Element.mk "package_configuration" none
      [Element.mk "packages" none []],
     Element.mk "maintenance" none
      [Element.mk "recon" (set_bool_text true) []]]

/-- The object kinds accepted by Policy.add_object_to_scope
(src/jss/jssobjects.py lines 714-736). -/
inductive ScopeTarget where
  | computer
  | computerGroup
  | building
  | department
deriving DecidableEq

/-- Embedding of the path dispatch of Policy.add_object_to_scope
(src/jss/jssobjects.py lines 727-736): the scope list path selected for
each accepted object kind, pre-split at the slashes. -/
def Policy.add_object_to_scope_path : ScopeTarget → List String
  | ScopeTarget.computer => ["scope", "computers"]
  | ScopeTarget.computerGroup => ["scope", "computer_groups"]
  | ScopeTarget.building => ["scope", "buildings"]
  | ScopeTarget.department => ["scope", "departments"]

/-- The clear_list sections of Policy.clear_scope
(src/jss/jssobjects.py lines 740-746), pre-split at the slashes. -/
def Policy.clear_scope_sections : List (List String) :=
  [["computers"], ["computer_groups"], ["buildings"],
   ["departments"], ["limit_to_users", "user_groups"],
   ["limitations", "users"], ["limitations", "user_groups"],
   ["limitations", "network_segments"], ["exclusions", "computers"],
   ["exclusions", "computer_groups"], ["exclusions", "buildings"],
   ["exclusions", "departments"], ["exclusions", "users"],
   ["exclusions", "user_groups"], ["exclusions", "network_segments"]]

/-- The JSSObject.clear_list operation under its source name (see
clearAtPath for the model). -/
def Policy.clear_list (e : Element) (path : List String) : Element :=
  clearAtPath e path

/-- Embedding of Policy.clear_scope (src/jss/jssobjects.py lines
738-748): clear_list applied in order to scope slash section for every
section of the clear list. -/
def Policy.clear_scope (e : Element) : Element :=
  Policy.clear_scope_sections.foldl
    (fun acc s => Policy.clear_list acc ("scope" :: s)) e

/-- The full pre-split paths targeted by Policy.clear_scope. -/
def Policy.targeted_scope_paths : List (List String) :=
  Policy.clear_scope_sections.map (fun s => "scope" :: s)

/-- C1: For every LDAP group-membership query, is_user_in_group returns
false when the response contains exactly one record, returns true exactly
when a two-record response confirms both the queried username and a
membership flag of Yes, and raises the unexpected-response JSSGetError
whenever the response contains three or more records. -/
theorem is_user_in_group_response_shapes (response : Element) (user : String) :
    (response.children.length = 1 →
      LDAPServer.is_user_in_group response user = Except.ok false)
    ∧ (LDAPServer.is_user_in_group response user = Except.ok true ↔
        response.children.length = 2
        ∧ response.findtext ["ldap_user", "username"] = some user
        ∧ response.findtext ["ldap_user", "is_member"] = some "Yes")
    ∧ (3 ≤ response.children.length →
      LDAPServer.is_user_in_group response user
        = Except.error (JssError.getError "Unexpected response.")) := by
  refine ⟨?_, ⟨?_, ?_⟩, ?_⟩
  · intro h1
    simp [LDAPServer.is_user_in_group, h1]
  · intro h
    simp only [LDAPServer.is_user_in_group] at h
    split_ifs at h with h1 h2 h3
    · exact absurd h (by simp)
    · simp only [Except.ok.injEq] at h
      rw [Bool.and_eq_true] at h
      exact ⟨h2, eq_of_beq h.1, eq_of_beq h.2⟩
    · exact absurd h (by simp)
  · rintro ⟨h2, hA, hB⟩
    have h1 : ¬ response.children.length = 1 := by omega
    simp [LDAPServer.is_user_in_group, h1, h2, hA, hB]
  · intro h3
    have h1 : ¬ response.children.length = 1 := by omega
    have h2 : ¬ response.children.length = 2 := by omega
    have h4 : 2 ≤ response.children.length := by omega
    simp [LDAPServer.is_user_in_group, h1, h2, h4]

/-- A one-record LDAP membership response (no match). -/
def ldapResponseOne : Element :=
  Element.mk "ldap_users" none [Element.mk "size" (some "0") []]

/-- A two-record LDAP membership response confirming the username and the
membership flag. -/
def ldapResponseTwo : Element :=
  Element.mk "ldap_users" none
    [Element.mk "size" (some "1") [],
     Element.mk "ldap_user" none
       [Element.mk "username" (some "alice") [],
        Element.mk "is_member" (some "Yes") []]]

/-- A three-record LDAP membership response. -/
def ldapResponseThree : Element :=
  Element.mk "ldap_users" none
    [Element.mk "size" (some "2") [],
     Element.mk "ldap_user" none [],
     Element.mk "ldap_user" none []]

/-- Witness for C1 on concrete one-, two- and three-record responses. -/
theorem is_user_in_group_response_shapes_witness :
    LDAPServer.is_user_in_group ldapResponseOne "alice" = Except.ok false
    ∧ LDAPServer.is_user_in_group ldapResponseTwo "alice" = Except.ok true
    ∧ LDAPServer.is_user_in_group ldapResponseThree "alice"
        = Except.error (JssError.getError "Unexpected response.") :=
  ⟨(is_user_in_group_response_shapes ldapResponseOne "alice").1 (by decide),
   (is_user_in_group_response_shapes ldapResponseTwo "alice").2.1.mpr
     ⟨by decide, by decide, by decide⟩,
   (is_user_in_group_response_shapes ldapResponseThree "alice").2.2 (by decide)⟩

/-- A stand-in for ElementTree.fromstring that succeeds, representing a
well-formed XML response body. -/
def parseOkComputers : String → Except JssError Element :=
  fun _ => Except.ok (Element.mk "computers" none [])

/-- C2 counterexample: a response with status code 500, which is at least
400 and neither 401 nor 404, does not make get_request fail with an error
carrying the status code and body; get_request decodes the body and
returns it as a success. -/
theorem get_request_status_500_counterexample :
    JSS.get_request parseOkComputers
      "https://jss.example.com/JSSResource/computers"
      (HttpResponse.mk 500 "<computers></computers>")
      = Except.ok (Element.mk "computers" none []) := rfl

/-- C2 amended: for every HTTP response whose status code is neither 401
nor 404 (in particular every other status of at least 400), get_request
raises no status-based error at all: it falls through to the XML decode
of the body and returns that result. -/
theorem get_request_other_4xx_falls_through
    (fromstring : String → Except JssError Element) (url : String)
    (response : HttpResponse) (h400 : 400 ≤ response.status_code)
    (h401 : response.status_code ≠ 401) (h404 : response.status_code ≠ 404) :
    JSS.get_request fromstring url response = fromstring response.text := by
  simp [JSS.get_request, h401, h404]

/-- Witness for the amended C2 at status 500. -/
theorem get_request_other_4xx_falls_through_witness :
    JSS.get_request parseOkComputers "https://jss.example.com/x"
      (HttpResponse.mk 500 "<p></p>")
      = parseOkComputers "<p></p>" :=
  get_request_other_4xx_falls_through parseOkComputers
    "https://jss.example.com/x" (HttpResponse.mk 500 "<p></p>")
    (by decide) (by decide) (by decide)

/-- C3: for every resource type whose descriptor disables an operation,
dispatching that operation fails with MethodNotAllowed and issues no
network call. -/
theorem disabled_operation_fails_without_network (c : JSSObjectClass)
    (op : CrudOp) (h : c.can_perform op = false) :
    crudDispatch c op = (Except.error JssError.methodNotAllowed, []) := by
  simp [crudDispatch, h]

/-- Witness for C3: delete is disabled on ActivationCode and SavedSearch,
and dispatching delete on them fails with MethodNotAllowed and an empty
request log. -/
theorem disabled_operation_fails_without_network_witness :
    crudDispatch ActivationCode CrudOp.opDelete
        = (Except.error JssError.methodNotAllowed, [])
    ∧ crudDispatch SavedSearch CrudOp.opDelete
        = (Except.error JssError.methodNotAllowed, []) :=
  ⟨disabled_operation_fails_without_network ActivationCode CrudOp.opDelete
     (by decide),
   disabled_operation_fails_without_network SavedSearch CrudOp.opDelete
     (by decide)⟩

/-- C4: constructing a FileUpload with a resource_type outside the
enumerated set or an id_type outside id and name fails with
JSSFileUploadParameterError, before any network request is sent (the
constructor issues none). -/
theorem fileupload_invalid_parameter_fails (jss_url rt it i : String)
    (h : rt ∉ FileUpload.resource_types ∨ it ∉ FileUpload.id_types) :
    ∃ msg, FileUpload.init jss_url rt it i
      = Except.error (JssError.fileUploadParameterError msg) := by
  rcases h with h | h
  · exact ⟨"resource_type must be one of the enumerated resource types",
      by simp [FileUpload.init, h]⟩
  · by_cases hrt : rt ∈ FileUpload.resource_types
    · exact ⟨"id_type must be one of: id, name",
        by simp [FileUpload.init, hrt, h]⟩
    · exact ⟨"resource_type must be one of the enumerated resource types",
        by simp [FileUpload.init, hrt]⟩

/-- Witness for C4: the resource_type widgets is outside the enumerated
set and construction fails with the parameter error. -/
theorem fileupload_invalid_parameter_fails_witness :
    ∃ msg, FileUpload.init "https://jss.example.com/JSSResource"
      "widgets" "id" "42"
      = Except.error (JssError.fileUploadParameterError msg) :=
  fileupload_invalid_parameter_fails "https://jss.example.com/JSSResource"
    "widgets" "id" "42" (Or.inl (by decide))

/-- C5: for every list response, the list operation never includes an
entry whose tag equals the size marker tag. -/
theorem list_excludes_size_entries (xmldata : Element) (entry : Element)
    (h : entry ∈ JSS.list xmldata) : entry.tag ≠ "size" := by
  rw [JSS.list] at h
  have h2 := (List.mem_filter.mp h).2
  simpa using h2

/-- A list response containing a size marker and one entry. -/
def listResponseSample : Element :=
  Element.mk "computers" none
    [Element.mk "size" (some "1") [],
     Element.mk "computer" none []]

/-- Witness for C5 on a concrete list response. -/
theorem list_excludes_size_entries_witness :
    (Element.mk "computer" none ([] : List Element)).tag ≠ "size" :=
  list_excludes_size_entries listResponseSample
    (Element.mk "computer" none []) (List.mem_cons_self _ _)

/-- C7: for the policies descriptor with the primary-key token id and key
42, the request URL built by JSS.get is exactly the base followed by
/policies/id/42, and URL resolution is a function of its inputs. -/
theorem resolve_policies_id_path (base : String) :
    JSS.get_url base Policy._url (some "42") = base ++ "/policies/id/42"
    ∧ ∀ (b o : String) (i : Option String),
        JSS.get_url b o i = JSS.get_url b o i := by
  constructor
  · show base ++ "/policies" ++ "/id/" ++ "42" = base ++ "/policies/id/42"
    rw [String.append_assoc, String.append_assoc]
    congr 1
  · intro b o i
    rfl

/-- C6: clearing the scope of a policy removes all children of every
targeted scope list element that is present in the document, while the
targeted list element itself remains present. -/
theorem clear_scope_empties_targeted_lists (policy : Element)
    (p : List String) (hp : p ∈ Policy.targeted_scope_paths)
    (el : Element) (hfind : policy.find p = some el) :
    ∃ el2, (Policy.clear_scope policy).find p = some el2
      ∧ el2.children = [] := by
  have hall : ∀ p2 ∈ Policy.targeted_scope_paths,
      ∀ q ∈ Policy.targeted_scope_paths, strictPrefixOf q p2 = false := by
    decide
  have hfold : Policy.clear_scope policy
      = Policy.targeted_scope_paths.foldl clearAtPath policy := by
    rw [Policy.targeted_scope_paths, List.foldl_map]
    rfl
  obtain ⟨el2, hf2, _, hin⟩ := find_foldl_clearAtPath
    Policy.targeted_scope_paths policy p el (hall p hp) hfind
  rw [hfold]
  exact ⟨el2, hf2, hin hp⟩

/-- Witness for C6: clearing the scope of a freshly built policy leaves
the scope computers list present and empty. -/
theorem clear_scope_empties_targeted_lists_witness :
    ∃ el2, (Policy.clear_scope (Policy.new "Test" none)).find
        ["scope", "computers"] = some el2 ∧ el2.children = [] :=
  clear_scope_empties_targeted_lists (Policy.new "Test" none)
    ["scope", "computers"] (by decide)
    (Element.mk "computers" none []) rfl

/-- A computer document with a secondary MAC address but no primary. -/
def computerAltOnly : Element :=
  Element.mk "computer" none
    [Element.mk "general" none
      [Element.mk "alt_mac_address" (some "00:11:22:33:44:55") []]]

/-- C8 counterexample: on a document whose general block has a secondary
alt_mac_address but no primary mac_address, the mac_addresses accessor
returns a list even though the primary address is absent, refuting that
a list is returned only when both addresses are present. -/
theorem mac_addresses_alt_only_counterexample :
    Computer.mac_addresses computerAltOnly
      = some [none, some "00:11:22:33:44:55"]
    ∧ computerAltOnly.findtext ["general", "mac_address"] = none :=
  ⟨rfl, rfl⟩

/-- C8 amended: with a primary address present and no secondary address,
mac_addresses returns None rather than a one-element list; in general it
returns a list exactly when the secondary address is present with
nonempty text, and that list pairs the primary slot, possibly absent,
with the secondary address. -/
theorem mac_addresses_secondary_controls_result (e : Element) :
    ((e.findtext ["general", "mac_address"]).isSome →
      e.findtext ["general", "alt_mac_address"] = none →
      Computer.mac_addresses e = none)
    ∧ ((Computer.mac_addresses e).isSome
        ↔ truthy (e.findtext ["general", "alt_mac_address"]) = true)
    ∧ (∀ l, Computer.mac_addresses e = some l →
        l = [e.findtext ["general", "mac_address"],
             e.findtext ["general", "alt_mac_address"]]) := by
  refine ⟨?_, ?_, ?_⟩
  · intro _ halt
    simp [Computer.mac_addresses, halt, truthy]
  · cases ht : truthy (e.findtext ["general", "alt_mac_address"]) <;>
      simp [Computer.mac_addresses, ht]
  · intro l hl
    simp only [Computer.mac_addresses] at hl
    split_ifs at hl with ht
    · simpa using hl.symm

/-- A computer document with a primary MAC address and no secondary. -/
def computerPrimaryOnly : Element :=
  Element.mk "computer" none
    [Element.mk "general" none
      [Element.mk "mac_address" (some "aa:bb:cc:dd:ee:ff") []]]

/-- Witness for the amended C8: primary present, secondary absent, the
accessor returns None. -/
theorem mac_addresses_secondary_controls_result_witness :
    Computer.mac_addresses computerPrimaryOnly = none :=
  (mac_addresses_secondary_controls_result computerPrimaryOnly).1
    (by decide) (by decide)

/-- C9: when the document has no text value at the bluetooth address
path, the bluetooth_mac_address accessor returns the value at the
mac_address path instead; it returns an absent value only when the
bluetooth path is empty or missing and the mac_address path is
missing. -/
theorem bluetooth_mac_address_fallback (e : Element) :
    (e.findtext ["general", "bluetooth_mac_address"] = none →
      MobileDevice.bluetooth_mac_address e
        = e.findtext ["general", "mac_address"])
    ∧ (MobileDevice.bluetooth_mac_address e = none →
        truthy (e.findtext ["general", "bluetooth_mac_address"]) = false
        ∧ e.findtext ["general", "mac_address"] = none) := by
  constructor
  · intro hbt
    simp [MobileDevice.bluetooth_mac_address, hbt, truthy]
  · intro hres
    rw [MobileDevice.bluetooth_mac_address] at hres
    split_ifs at hres with ht
    · rw [hres] at ht
      simp [truthy] at ht
    · exact ⟨by simpa using ht, hres⟩

/-- A mobile device document with a wifi MAC address only. -/
def mobileDeviceSample : Element :=
  Element.mk "mobile_device" none
    [Element.mk "general" none
      [Element.mk "mac_address" (some "aa:bb:cc:11:22:33") []]]

/-- Witness for C9: no bluetooth address in the document, the accessor
falls back to the mac_address value. -/
theorem bluetooth_mac_address_fallback_witness :
    MobileDevice.bluetooth_mac_address mobileDeviceSample
      = mobileDeviceSample.findtext ["general", "mac_address"] :=
  (bluetooth_mac_address_fallback mobileDeviceSample).1 (by decide)

/-- C10: the scope block built by Policy.new contains a child element
tagged buldings and no child tagged buildings, while both
add_object_to_scope for a Building and clear_scope address the path
scope slash buildings, which does not resolve in the freshly built
document. -/
theorem policy_new_buldings_typo (name : String) (category : Option String) :
    ∃ scope, (Policy.new name category).find ["scope"] = some scope
      ∧ scope.children.any (fun c => c.tag == "buldings") = true
      ∧ scope.children.any (fun c => c.tag == "buildings") = false
      ∧ (Policy.new name category).find ["scope", "buildings"] = none
      ∧ ((Policy.new name category).find ["scope", "buldings"]).isSome = true
      ∧ Policy.add_object_to_scope_path ScopeTarget.building
          = ["scope", "buildings"]
      ∧ ["scope", "buildings"] ∈ Policy.targeted_scope_paths :=
  ⟨Element.mk "scope" none
    [Element.mk "computers" none [],
     Element.mk "computer_groups" none [],
     Element.mk "buldings" none [],
     Element.mk "departments" none [],
     Element.mk "exclusions" none
      [Element.mk "computers" none [],
       Element.mk "computer_groups" none [],
       Element.mk "buildings" none [],
       Element.mk "departments" none []]],
   rfl, rfl, rfl, rfl, rfl, rfl, by decide⟩
